import Mathlib

/-!
Shallow embedding of `src/script.js` (browser chess UI).

The rules engine (`chess.js`, the external rules collaborator) is not part of
this repository; the UI treats it as an oracle.  We therefore model it as an
abstract interface `Engine G` over an opaque game-state type `G`: each field
corresponds to one chess.js method the script calls (`turn`, `game_over`,
`get`, `moves`, `move`, the terminal predicates, `fen`).  chess.js mutates the
`game` object in place; we model `move` as returning `some` of the new state on
success and `none` on rejection (JS `null`).

The mutable top-level variables of `script.js` (selectedSquare,
legalMovesFromSelected, pendingPromotion, manualGameOver, lastAIMoveUCI) and
the DOM text/flags the script writes (probability displays, status line,
`whoIsWinning`, the `active` panel classes, the promotion modal visibility)
are collected in `UIState`.  Purely visual DOM work (square highlighting
classes, piece glyph rendering) has no effect on any claim and is modeled as
the identity, with comments marking where `renderPieces` / `clearHighlights`
run in the source.

Event handlers become pure state transformers:
  * `onSquareClick`            — `onSquareClick` (script.js lines 105-153)
  * `promotionChoiceClick`     — the `promotionButtonsContainer` click handler
                                  (lines 169-188)
  * `updateStatus`             — `updateStatus` (lines 199-259)
  * `engineEvaluateAndAct`     — `engineEvaluateAndAct` (lines 273-335);
    the asynchronous `window.fetchEngineEval` call is modeled by a parameter
    `fetch : Option (Option EvalResponse)`: `none` when the collaborator is
    absent (`typeof window.fetchEngineEval !== 'function'`), `some none` when
    the awaited call throws (network error / malformed null response — the
    `catch` swallows it), `some (some r)` on success.  `Math.random()` is
    modeled by a rational parameter `rand`, JS `Math.round` by `jsRound`.
-/

namespace ChessUI

/-- chess.js colors 'w' / 'b'. -/
inductive Color
  | w
  | b
deriving DecidableEq

/-- chess.js piece letters p/n/b/r/q/k. -/
inductive PieceType
  | p
  | n
  | b
  | r
  | q
  | k
deriving DecidableEq

/-- A piece as returned by `game.get(square)`: `{ type, color }`. -/
structure Piece where
  type : PieceType
  color : Color
deriving DecidableEq

/-- A verbose move as returned by `game.moves({verbose: true})`.
JS fields `from` / `to` are named `fromSq` / `toSq` (`from` is a Lean
keyword); the JS `flags` string is kept as its list of characters. -/
structure VerboseMove where
  fromSq : String
  toSq : String
  flags : List Char
  promotion : Option Char
deriving DecidableEq

/-- The argument object passed to `game.move({from, to, promotion})`. -/
structure MoveArg where
  fromSq : String
  toSq : String
  promotion : Option Char
deriving DecidableEq

/-- `pendingPromotion`: `{ from, to, color }` (script.js line 26). -/
structure PendingPromotion where
  fromSq : String
  toSq : String
  color : Color
deriving DecidableEq

/-- The external rules collaborator (chess.js) as an abstract interface.
`moves g (some sq)` is `game.moves({square: sq, verbose: true})`;
`moves g none` is `game.moves({verbose: true})`. -/
structure Engine (G : Type) where
  turn : G → Color
  game_over : G → Bool
  get : G → String → Option Piece
  moves : G → Option String → List VerboseMove
  move : G → MoveArg → Option G
  in_check : G → Bool
  in_checkmate : G → Bool
  in_stalemate : G → Bool
  in_threefold_repetition : G → Bool
  insufficient_material : G → Bool
  in_draw : G → Bool
  fen : G → String

/-- The script's mutable state plus the DOM fields it writes. -/
structure UIState (G : Type) where
  game : G
  selectedSquare : Option String
  legalMovesFromSelected : List String
  pendingPromotion : Option PendingPromotion
  manualGameOver : Bool
  lastAIMoveUCI : Option String
  whiteProbabilityText : String
  blackProbabilityText : String
  whoIsWinningText : String
  statusText : String
  leftActive : Bool
  rightActive : Bool
  promotionModalOpen : Bool
deriving DecidableEq

variable {G : Type}

/-- Truthiness of `piece && piece.color === 'w'`. -/
def pieceIsWhite : Option Piece → Bool
  | some p => if p.color = Color.w then true else false
  | none => false

/-- `highlightMoves(from)` (lines 81-99): `clearHighlights()` touches only DOM
classes; the state effect is `legalMovesFromSelected = moves.map(m => m.to)`
from a fresh query for the source square. -/
def highlightMoves (E : Engine G) (ui : UIState G) (fromSq : String) : UIState G :=
  { ui with legalMovesFromSelected := (E.moves ui.game (some fromSq)).map (fun m => m.toSq) }

/-- `shouldPromptPromotion(from, to, color)` (lines 155-160).
`const rank = to[1]` is the second character of the target string. -/
def shouldPromptPromotion (E : Engine G) (g : G) (fromSq toSq : String) (color : Color) : Bool :=
  match E.get g fromSq with
  | none => false
  | some p =>
    if p.type ≠ PieceType.p ∨ p.color ≠ color then false
    else
      let rank := toSq.data.get? 1
      if (color = Color.w ∧ rank = some '8') ∨ (color = Color.b ∧ rank = some '1') then true
      else false

/-- `updateStatus()` (lines 199-259). -/
def updateStatus (E : Engine G) (ui : UIState G) : UIState G :=
  if ui.manualGameOver then ui
  else
    let turnSide := E.turn ui.game
    let turnLabel := if turnSide = Color.w then "You" else "Mahmoud"
    let status0 := turnLabel ++ " to move."
    let status1 :=
      if E.game_over ui.game = false ∧ E.in_check ui.game = true then
        status0 ++ " " ++ (if turnSide = Color.w then "You are in check!" else "Mahmoud is in check!")
      else status0
    let pair :=
      if E.game_over ui.game then
        if E.in_checkmate ui.game then
          let winnerLabel := if turnSide = Color.w then "Mahmoud" else "You"
          ("Checkmate. " ++ winnerLabel ++ " won!", winnerLabel ++ " won!")
        else if E.in_stalemate ui.game then ("Stalemate. Draw!", "Draw!")
        else if E.in_threefold_repetition ui.game then ("Threefold repetition. Draw!", "Draw!")
        else if E.insufficient_material ui.game then ("Insufficient material. Draw!", "Draw!")
        else if E.in_draw ui.game then ("50-move rule. Draw!", "Draw!")
        else ("Game Over.", "Game Over")
      else (status1, ui.whoIsWinningText)
    let ui1 := { ui with statusText := pair.1, whoIsWinningText := pair.2 }
    if E.game_over ui1.game then
      { ui1 with
          whiteProbabilityText := "N/A", blackProbabilityText := "N/A",
          leftActive := false, rightActive := false }
    else if turnSide = Color.w then { ui1 with leftActive := true, rightActive := false }
    else { ui1 with rightActive := true, leftActive := false }

/-- `syncAfterHumanMove()` (lines 190-197): `renderPieces()` is DOM-only, then
`updateStatus()`.  The `setTimeout(engineEvaluateAndAct, 450)` schedules a
separate later event, modeled as a separate application of
`engineEvaluateAndAct`. -/
def syncAfterHumanMove (E : Engine G) (ui : UIState G) : UIState G :=
  updateStatus E ui

/-- `onSquareClick(e)` (lines 105-153), with `sq` the clicked cell. -/
def onSquareClick (E : Engine G) (ui : UIState G) (sq : String) : UIState G :=
  if ui.manualGameOver then ui
  else if E.game_over ui.game then ui
  else if E.turn ui.game ≠ Color.w then ui
  else
    let piece := E.get ui.game sq
    match ui.selectedSquare with
    | none =>
      -- no selection yet: select a white piece if one was clicked
      if pieceIsWhite piece then highlightMoves E { ui with selectedSquare := some sq } sq
      else ui
    | some sel =>
      -- clicking another white piece reselects
      if pieceIsWhite piece ∧ sq ≠ sel then
        highlightMoves E { ui with selectedSquare := some sq } sq
      else if shouldPromptPromotion E ui.game sel sq Color.w then
        -- suspend: record pendingPromotion and open the modal
        { ui with pendingPromotion := some ⟨sel, sq, Color.w⟩, promotionModalOpen := true }
      else
        match E.move ui.game ⟨sel, sq, some 'q'⟩ with
        | none =>
          -- illegal: keep selection only if clicked a white piece
          if pieceIsWhite piece then highlightMoves E { ui with selectedSquare := some sq } sq
          else { ui with selectedSquare := none }  -- clearHighlights() is DOM-only
        | some g' =>
          syncAfterHumanMove E { ui with game := g', selectedSquare := none }

/-- The `promotionButtonsContainer` click handler (lines 169-188).
`btnPiece = none` models a click outside any button (`!btn`); `some pc`
models a button click whose `data-piece` attribute is `pc` (an `Option Char`,
`none` when the attribute is absent). -/
def promotionChoiceClick (E : Engine G) (ui : UIState G) (btnPiece : Option (Option Char)) :
    UIState G :=
  match btnPiece with
  | none => ui
  | some promotionPiece =>
    match ui.pendingPromotion with
    | none => ui
    | some pp =>
      let res := E.move ui.game ⟨pp.fromSq, pp.toSq, promotionPiece⟩
      let ui1 := { ui with pendingPromotion := none, promotionModalOpen := false }
      match res with
      | some g' => syncAfterHumanMove E { ui1 with game := g' }
      | none => updateStatus E ui1  -- illegal (should not happen), just re-render

/-- JS `Math.round` on the rationals: round half towards positive infinity,
`Math.round(x) = floor(x + 0.5)`. -/
def jsRound (q : ℚ) : ℤ :=
  ⌊q + 1 / 2⌋

/-- JS `${x || ''}` for an optional single character. -/
def optCharToStr : Option Char → String
  | some c => String.singleton c
  | none => ""

/-- JS `a || b` for an optional string `a` (the empty string is falsy). -/
def jsOrStr : Option String → String → String
  | some s, b => if s = "" then b else s
  | none, b => b

/-- JS `String.prototype.trim`: strip whitespace from both ends. -/
def jsTrim (s : String) : String :=
  ⟨((s.data.dropWhile Char.isWhitespace).reverse.dropWhile Char.isWhitespace).reverse⟩

/-- JS `String.prototype.toLowerCase`, characterwise (the UCI strings the
script handles are ASCII). -/
def jsToLower (s : String) : String :=
  ⟨s.data.map Char.toLower⟩

/-- `uciToMove(uci)` (lines 261-271).  The JS argument may be any value;
`none` models a non-string or nullish argument (`!uci || typeof uci !==
'string'` returns null), and the empty string is falsy so it also returns
null.  Otherwise the string is trimmed and lowercased, rejected when shorter
than 4 characters, and split as `slice(0,2)` / `slice(2,4)` / optional `s[4]`
(already lowercase). -/
def uciToMove : Option String → Option MoveArg
  | none => none
  | some uci =>
    if uci = "" then none
    else
      let s := jsToLower (jsTrim uci)
      if s.length < 4 then none
      else
        let fromSq : String := ⟨s.data.take 2⟩
        let toSq : String := ⟨(s.data.drop 2).take 2⟩
        let promotion := s.data.get? 4
        match promotion with
        | some c => some ⟨fromSq, toSq, some c⟩
        | none => some ⟨fromSq, toSq, none⟩

/-- The engine evaluation response, `{ prob, best_move }`, as destructured on
line 284.  `prob` is modeled as a rational, `best_move` as an optional
string (`none` when the payload carries no recommended move).  This type
covers every resolved payload with a NUMERIC `prob`; a resolved payload
whose `prob` is missing or non-numeric is outside it — on such a payload
line 286 computes `Math.round(undefined * 100) = NaN` and the displays read
"NaN%", a divergence recorded where the error-path behavior is analyzed
(`engineEval_resolved_no_move` and the theorems using it). -/
structure EvalResponse where
  prob : ℚ
  best_move : Option String

/-- The random index `Math.floor(Math.random() * moves.length)` (line 322),
with `rand` the value of `Math.random()`. -/
def fallbackIndex (rand : ℚ) (n : ℕ) : ℕ :=
  (⌊rand * n⌋).toNat

/-- The move argument the random fallback submits (lines 324-328): promotion
is forced to queen exactly on the `'p'` (pawn promotion) flag; otherwise the
verbose move object itself is passed to `game.move`. -/
def fallbackMoveArg (m : VerboseMove) : MoveArg :=
  if 'p' ∈ m.flags then ⟨m.fromSq, m.toSq, some 'q'⟩
  else ⟨m.fromSq, m.toSq, m.promotion⟩

/-- The random-move fallback block (lines 319-331), as a function of the game
state alone: returns the (possibly unchanged) game state and the
`lastAIMoveUCI` string to record (`none` when the block did not run or the
legal-move list was empty; chess.js mutates nothing when `game.move` rejects).
The guard `!moved` is applied by the caller. -/
def fallbackRandomMove (E : Engine G) (rand : ℚ) (g : G) : G × Option String :=
  if E.turn g = Color.b ∧ E.game_over g = false then
    let moves := E.moves g none
    if 0 < moves.length then
      let idx := fallbackIndex rand moves.length
      let m := moves.getD idx ⟨"", "", [], none⟩
      let g' :=
        match E.move g (fallbackMoveArg m) with
        | some g' => g'
        | none => g
      (g', some (m.fromSq ++ m.toSq ++ optCharToStr m.promotion))
    else (g, none)
  else (g, none)

/-- The `try` block of `engineEvaluateAndAct` (lines 283-315) after the
probability placeholders are set: returns the updated state and the `moved`
flag.  `fetch = none`: `window.fetchEngineEval` is not a function, the block
is skipped.  `fetch = some none`: the awaited call threw (network failure or
a malformed nullish response breaking the destructuring); the `catch`
swallows it with no state change.  `fetch = some (some r)`: the call
resolved to `r`. -/
def engineTryBlock (E : Engine G) (fetch : Option (Option EvalResponse)) (ui : UIState G) :
    UIState G × Bool :=
  match fetch with
  | none => (ui, false)
  | some none => (ui, false)
  | some (some r) =>
    let wPct := jsRound (r.prob * 100)
    let bPct := 100 - wPct
    let ui2 := { ui with
      whiteProbabilityText := toString wPct ++ "%",
      blackProbabilityText := toString bPct ++ "%",
      whoIsWinningText :=
        if wPct = 50 then "Balanced" else if wPct > 50 then "You" else "Mahmoud" }
    -- If it's black's turn, apply engine move
    if E.turn ui2.game = Color.b ∧ E.game_over ui2.game = false then
      match uciToMove r.best_move with
      | none => (ui2, false)
      | some mv =>
        match E.move ui2.game mv with
        | some g' =>
          ({ ui2 with
              game := g',
              lastAIMoveUCI :=
                some (jsOrStr r.best_move (mv.fromSq ++ mv.toSq ++ optCharToStr mv.promotion)) },
            true)
        | none =>
          match mv.promotion with
          | some _ =>
            -- retry the same coordinates forcing promotion to queen
            (match E.move ui2.game ⟨mv.fromSq, mv.toSq, some 'q'⟩ with
              | some g' =>
                ({ ui2 with game := g', lastAIMoveUCI := some (mv.fromSq ++ mv.toSq ++ "q") },
                  true)
              | none => (ui2, false))
          | none => (ui2, false)
    else (ui2, false)

/-- `engineEvaluateAndAct()` (lines 273-335). -/
def engineEvaluateAndAct (E : Engine G) (fetch : Option (Option EvalResponse)) (rand : ℚ)
    (ui : UIState G) : UIState G :=
  if ui.manualGameOver ∨ E.game_over ui.game = true then ui
  else
    -- `const fen = game.fen()` is read and passed to the collaborator; the
    -- collaborator's behavior is the `fetch` parameter.
    let ui1 := { ui with
      whiteProbabilityText := "Calculating…", blackProbabilityText := "Calculating…" }
    let tb := engineTryBlock E fetch ui1
    let ui3 := tb.1
    let moved := tb.2
    -- Fallback to random move if not moved
    let ui4 :=
      if moved = false then
        let fb := fallbackRandomMove E rand ui3.game
        { ui3 with
            game := fb.1,
            lastAIMoveUCI :=
              match fb.2 with
              | some l => some l
              | none => ui3.lastAIMoveUCI }
      else ui3
    -- renderPieces() is DOM-only
    updateStatus E ui4

/-- `startNewGame()` (lines 337-349), given the engine's reset state
`g0 = game.reset()`.  The scheduled `engineEvaluateAndAct` is a separate later
event. -/
def startNewGame (E : Engine G) (ui : UIState G) (g0 : G) : UIState G :=
  updateStatus E
    { ui with
        game := g0, selectedSquare := none, pendingPromotion := none,
        manualGameOver := false, lastAIMoveUCI := none, promotionModalOpen := false }

/-! ### A small concrete rules-engine instance

Used to evaluate the embedded handlers on concrete inputs (witnesses and
counterexamples).  Game states are numbered:
  0 — white to move; white pawn on e7, white knight on g1;
  1 — black to move (reached from 0 by e7e8 promoting to queen);
  2 — black to move (reached from 0 by e7e8 promoting to rook; white rook on e8);
  3 — terminal: checkmate (black to move and mated);
  5 — black to move (reached from 0 by g1f3);
  6 — white to move (reached from 1 by a black reply).
-/

def testTurn : ℕ → Color
  | 0 => Color.w
  | 1 => Color.b
  | 2 => Color.b
  | 3 => Color.b
  | 5 => Color.b
  | _ => Color.w

def testGameOver : ℕ → Bool
  | 3 => true
  | _ => false

def testGet : ℕ → String → Option Piece
  | 0, "e7" => some ⟨PieceType.p, Color.w⟩
  | 0, "g1" => some ⟨PieceType.n, Color.w⟩
  | 2, "e8" => some ⟨PieceType.r, Color.w⟩
  | _, _ => none

def testMoves : ℕ → Option String → List VerboseMove
  | 0, some "e7" => [⟨"e7", "e8", ['n', 'p'], some 'q'⟩]
  | 0, some "g1" => [⟨"g1", "f3", ['n'], none⟩]
  | 1, none => [⟨"e7", "e5", ['b'], none⟩, ⟨"a2", "a1", ['p'], some 'q'⟩]
  | _, _ => []

def testMove : ℕ → MoveArg → Option ℕ
  | 0, ⟨"e7", "e8", some 'q'⟩ => some 1
  | 0, ⟨"e7", "e8", some 'r'⟩ => some 2
  | 0, ⟨"g1", "f3", _⟩ => some 5
  | 1, ⟨"e7", "e5", _⟩ => some 6
  | 1, ⟨"a2", "a1", some 'q'⟩ => some 6
  | _, _ => none

def TestEngine : Engine ℕ where
  turn := testTurn
  game_over := testGameOver
  get := testGet
  moves := testMoves
  move := testMove
  in_check := fun g => if g = 3 then true else false
  in_checkmate := fun g => if g = 3 then true else false
  in_stalemate := fun _ => false
  in_threefold_repetition := fun _ => false
  insufficient_material := fun _ => false
  in_draw := fun _ => false
  fen := fun _ => ""

/-- The script's initial variable values (lines 23-28) over a given game
state; the display texts start from whatever the HTML holds, modeled as
empty strings. -/
def initUI (g : ℕ) : UIState ℕ where
  game := g
  selectedSquare := none
  legalMovesFromSelected := []
  pendingPromotion := none
  manualGameOver := false
  lastAIMoveUCI := none
  whiteProbabilityText := ""
  blackProbabilityText := ""
  whoIsWinningText := ""
  statusText := ""
  leftActive := false
  rightActive := false
  promotionModalOpen := false

/-! ### Helper lemmas -/

theorem updateStatus_game (E : Engine G) (ui : UIState G) :
    (updateStatus E ui).game = ui.game := by
  unfold updateStatus
  dsimp only
  repeat' split
  all_goals rfl

theorem updateStatus_selectedSquare (E : Engine G) (ui : UIState G) :
    (updateStatus E ui).selectedSquare = ui.selectedSquare := by
  unfold updateStatus
  dsimp only
  repeat' split
  all_goals rfl

theorem updateStatus_pendingPromotion (E : Engine G) (ui : UIState G) :
    (updateStatus E ui).pendingPromotion = ui.pendingPromotion := by
  unfold updateStatus
  dsimp only
  repeat' split
  all_goals rfl

theorem updateStatus_promotionModalOpen (E : Engine G) (ui : UIState G) :
    (updateStatus E ui).promotionModalOpen = ui.promotionModalOpen := by
  unfold updateStatus
  dsimp only
  repeat' split
  all_goals rfl

/-- Lowercasing is characterwise, so it preserves the length. -/
theorem jsToLower_length (s : String) : (jsToLower s).length = s.length := by
  show (s.data.map Char.toLower).length = s.data.length
  exact List.length_map ..

theorem updateStatus_lastAIMoveUCI (E : Engine G) (ui : UIState G) :
    (updateStatus E ui).lastAIMoveUCI = ui.lastAIMoveUCI := by
  unfold updateStatus
  dsimp only
  repeat' split
  all_goals rfl

/-- On a non-terminal, non-manually-ended position, `updateStatus` leaves the
probability displays and the `whoIsWinning` label as they were (lines
247-255). -/
theorem updateStatus_keeps_probabilities (E : Engine G) (ui : UIState G)
    (hm : ui.manualGameOver = false) (ho : E.game_over ui.game = false) :
    (updateStatus E ui).whiteProbabilityText = ui.whiteProbabilityText ∧
    (updateStatus E ui).blackProbabilityText = ui.blackProbabilityText ∧
    (updateStatus E ui).whoIsWinningText = ui.whoIsWinningText := by
  unfold updateStatus
  by_cases hw : E.turn ui.game = Color.w
  all_goals simp [hm, ho, hw]

/-! ### Claims -/

/-- Claim C2: if it is not the human (white) side's turn, or the game has
reached a terminal state, `onSquareClick` is the identity on the whole UI
state (it returns before any mutation, lines 106-110), so no move is
submitted and the position is unchanged; consequently once the game is
terminal, no sequence of further clicks can change anything. -/
theorem onSquareClick_guard (E : Engine G) (ui : UIState G) (sq : String)
    (clicks : List String) :
    (E.game_over ui.game = true ∨ E.turn ui.game ≠ Color.w → onSquareClick E ui sq = ui) ∧
    (E.game_over ui.game = true → List.foldl (onSquareClick E) ui clicks = ui) := by
  have hone : ∀ t : String,
      E.game_over ui.game = true ∨ E.turn ui.game ≠ Color.w → onSquareClick E ui t = ui := by
    intro t h
    unfold onSquareClick
    rcases h with h | h
    · simp [h]
    · simp [h]
  refine ⟨hone sq, ?_⟩
  intro h
  induction clicks with
  | nil => rfl
  | cons c cs ih =>
    have hc : onSquareClick E ui c = ui := hone c (Or.inl h)
    simpa [List.foldl, hc] using ih

/-- Witness for `onSquareClick_guard`: game state 3 is terminal; a click, and
any further sequence of clicks, leaves the UI state unchanged. -/
theorem onSquareClick_guard_witness :
    TestEngine.game_over (initUI 3).game = true ∧
    onSquareClick TestEngine (initUI 3) "e2" = initUI 3 ∧
    List.foldl (onSquareClick TestEngine) (initUI 3) ["e2", "e4", "g1"] = initUI 3 :=
  ⟨by decide,
    (onSquareClick_guard TestEngine (initUI 3) "e2" ["e2", "e4", "g1"]).1 (Or.inl (by decide)),
    (onSquareClick_guard TestEngine (initUI 3) "e2" ["e2", "e4", "g1"]).2 (by decide)⟩

/-- Claim C1 is false on the code: `onSquareClick` records `pendingPromotion`
without clearing `selectedSquare` (lines 132-135 set the pending record and
return, leaving the selection in place).  Concretely, from game state 0
(white pawn on e7) clicking e7 and then e8 yields a UI state in which BOTH
the active selection and the pending promotion are non-empty. -/
theorem selection_pending_both_nonempty :
    ((onSquareClick TestEngine (onSquareClick TestEngine (initUI 0) "e7") "e8").selectedSquare
        = some "e7") ∧
    ((onSquareClick TestEngine (onSquareClick TestEngine (initUI 0) "e7") "e8").pendingPromotion
        = some ⟨"e7", "e8", Color.w⟩) := by
  decide

/-- Claim C1, amended: when `onSquareClick` creates a pending promotion, the
active selection is retained rather than cleared, so the state afterwards
holds BOTH the selection (still pointing at the pending move's source) and
the pending promotion record; the position itself is unchanged. -/
theorem selection_retained_on_pending_promotion (E : Engine G) (ui : UIState G)
    (sel sq : String)
    (hm : ui.manualGameOver = false) (ho : E.game_over ui.game = false)
    (ht : E.turn ui.game = Color.w) (hsel : ui.selectedSquare = some sel)
    (hw : pieceIsWhite (E.get ui.game sq) = false)
    (hgate : shouldPromptPromotion E ui.game sel sq Color.w = true) :
    (onSquareClick E ui sq).selectedSquare = some sel ∧
    (onSquareClick E ui sq).pendingPromotion = some ⟨sel, sq, Color.w⟩ ∧
    (onSquareClick E ui sq).game = ui.game := by
  unfold onSquareClick
  simp [hm, ho, ht, hsel, hw, hgate]

/-- Witness for `selection_retained_on_pending_promotion` at the concrete
promotion scenario (select e7, click e8). -/
theorem selection_retained_witness :
    (onSquareClick TestEngine (onSquareClick TestEngine (initUI 0) "e7") "e8").selectedSquare
        = some "e7" ∧
    (onSquareClick TestEngine (onSquareClick TestEngine (initUI 0) "e7") "e8").pendingPromotion
        = some ⟨"e7", "e8", Color.w⟩ ∧
    (onSquareClick TestEngine (onSquareClick TestEngine (initUI 0) "e7") "e8").game
        = (onSquareClick TestEngine (initUI 0) "e7").game :=
  selection_retained_on_pending_promotion TestEngine
    (onSquareClick TestEngine (initUI 0) "e7") "e7" "e8"
    (by decide) (by decide) (by decide) (by decide) (by decide) (by decide)

/-- Claim C3 is false as stated: a click on a legal destination does NOT
always apply the move.  In game state 0 the white pawn on e7 is selected
(click e7); e8 is in its legal-destination set, yet clicking e8 is
intercepted by the promotion gate: the position is unchanged and the side to
move has not flipped. -/
theorem legal_destination_click_not_applied :
    ("e8" ∈ (onSquareClick TestEngine (initUI 0) "e7").legalMovesFromSelected) ∧
    ((onSquareClick TestEngine (onSquareClick TestEngine (initUI 0) "e7") "e8").game
        = (onSquareClick TestEngine (initUI 0) "e7").game) ∧
    (TestEngine.turn
        (onSquareClick TestEngine (onSquareClick TestEngine (initUI 0) "e7") "e8").game
      = Color.w) := by
  decide

/-- Claim C3, amended: with a human-side piece selected on a live position,
(1) clicking a cell in the piece's legal-destination set that does not
trigger the promotion gate applies the move (given the rules collaborator
accepts it, which is its contract for a listed destination) and the turn
flips; (2) a gate-triggering click defers the move as a pending promotion
and leaves the position unchanged; (3) clicking a cell outside the set (one
the rules collaborator rejects) never mutates the position. -/
theorem click_move_application (E : Engine G) (ui : UIState G) (sel sq : String) (g' : G)
    (hm : ui.manualGameOver = false) (ho : E.game_over ui.game = false)
    (ht : E.turn ui.game = Color.w) (hsel : ui.selectedSquare = some sel) :
    (shouldPromptPromotion E ui.game sel sq Color.w = false →
      pieceIsWhite (E.get ui.game sq) = false →
      sq ∈ (E.moves ui.game (some sel)).map (fun m => m.toSq) →
      E.move ui.game ⟨sel, sq, some 'q'⟩ = some g' →
      E.turn g' = Color.b →
        (onSquareClick E ui sq).game = g' ∧
        E.turn (onSquareClick E ui sq).game = Color.b ∧
        (onSquareClick E ui sq).selectedSquare = none) ∧
    (shouldPromptPromotion E ui.game sel sq Color.w = true →
      pieceIsWhite (E.get ui.game sq) = false →
        (onSquareClick E ui sq).game = ui.game ∧
        (onSquareClick E ui sq).pendingPromotion = some ⟨sel, sq, Color.w⟩) ∧
    (sq ∉ (E.moves ui.game (some sel)).map (fun m => m.toSq) →
      E.move ui.game ⟨sel, sq, some 'q'⟩ = none →
        (onSquareClick E ui sq).game = ui.game) := by
  refine ⟨?_, ?_, ?_⟩
  · intro hgate hw _hin hmv hturn
    unfold onSquareClick
    simp [hm, ho, ht, hsel, hw, hgate, hmv, syncAfterHumanMove, updateStatus_game, hturn]
    rw [updateStatus_selectedSquare]
  · intro hgate hw
    unfold onSquareClick
    simp [hm, ho, ht, hsel, hw, hgate]
  · intro _hout hmv
    unfold onSquareClick
    simp only [hm, ho, ht, hsel]
    by_cases hresel : pieceIsWhite (E.get ui.game sq) = true ∧ sq ≠ sel
    · simp [hresel, highlightMoves]
    · by_cases hgate : shouldPromptPromotion E ui.game sel sq Color.w = true
      · simp [hresel, hgate]
      · simp [hresel, hgate, hmv, highlightMoves]
        split
        all_goals rfl

/-- Witness for `click_move_application`: knight scenario (select g1, click
the listed destination f3; the move is applied and the turn flips). -/
theorem click_move_application_witness :
    ("f3" ∈ (TestEngine.moves 0 (some "g1")).map (fun m => m.toSq)) ∧
    ((onSquareClick TestEngine (onSquareClick TestEngine (initUI 0) "g1") "f3").game = 5 ∧
      TestEngine.turn (onSquareClick TestEngine (onSquareClick TestEngine (initUI 0) "g1") "f3").game
        = Color.b) := by
  have h := (click_move_application TestEngine (onSquareClick TestEngine (initUI 0) "g1")
      "g1" "f3" 5 (by decide) (by decide) (by decide) (by decide)).1
      (by decide) (by decide) (by decide) (by decide) (by decide)
  exact ⟨by decide, h.1, h.2.1⟩

/-- Claim C4: a human pawn move targeting the final rank is routed through
the promotion modal before the position is mutated — the click records the
pending move, opens the modal, and leaves the position unchanged; choosing a
promotion piece completes the move with exactly that piece (the rules
collaborator is called with `{from, to, promotion: choice}`), and if the
completed move is rejected the pending state is discarded, the modal closes,
and the position is not mutated further. -/
theorem promotion_gate_flow (E : Engine G) (ui : UIState G) (sel sq : String)
    (choice : Option Char) (g' : G)
    (hm : ui.manualGameOver = false) (ho : E.game_over ui.game = false)
    (ht : E.turn ui.game = Color.w) (hsel : ui.selectedSquare = some sel)
    (hw : pieceIsWhite (E.get ui.game sq) = false)
    (hgate : shouldPromptPromotion E ui.game sel sq Color.w = true) :
    (onSquareClick E ui sq).game = ui.game ∧
    (onSquareClick E ui sq).pendingPromotion = some ⟨sel, sq, Color.w⟩ ∧
    (onSquareClick E ui sq).promotionModalOpen = true ∧
    (E.move ui.game ⟨sel, sq, choice⟩ = some g' →
      (promotionChoiceClick E (onSquareClick E ui sq) (some choice)).game = g' ∧
      (promotionChoiceClick E (onSquareClick E ui sq) (some choice)).pendingPromotion = none ∧
      (promotionChoiceClick E (onSquareClick E ui sq) (some choice)).promotionModalOpen = false) ∧
    (E.move ui.game ⟨sel, sq, choice⟩ = none →
      (promotionChoiceClick E (onSquareClick E ui sq) (some choice)).game = ui.game ∧
      (promotionChoiceClick E (onSquareClick E ui sq) (some choice)).pendingPromotion = none ∧
      (promotionChoiceClick E (onSquareClick E ui sq) (some choice)).promotionModalOpen = false) := by
  have hr : onSquareClick E ui sq =
      { ui with pendingPromotion := some ⟨sel, sq, Color.w⟩, promotionModalOpen := true } := by
    unfold onSquareClick
    simp [hm, ho, ht, hsel, hw, hgate]
  rw [hr]
  refine ⟨rfl, rfl, rfl, ?_, ?_⟩
  · intro hmv
    unfold promotionChoiceClick
    simp only [hmv]
    dsimp [syncAfterHumanMove]
    exact ⟨updateStatus_game .., updateStatus_pendingPromotion .., updateStatus_promotionModalOpen ..⟩
  · intro hmv
    unfold promotionChoiceClick
    simp only [hmv]
    exact ⟨updateStatus_game .., updateStatus_pendingPromotion .., updateStatus_promotionModalOpen ..⟩

/-- Witness for `promotion_gate_flow`: selecting e7 and clicking e8 opens the
modal with the position unchanged; choosing rook ('r') completes the move
into game state 2, where a white rook stands on the destination cell e8. -/
theorem promotion_gate_flow_witness :
    (onSquareClick TestEngine (onSquareClick TestEngine (initUI 0) "e7") "e8").game
        = (onSquareClick TestEngine (initUI 0) "e7").game ∧
    (onSquareClick TestEngine (onSquareClick TestEngine (initUI 0) "e7") "e8").promotionModalOpen
        = true ∧
    (promotionChoiceClick TestEngine
        (onSquareClick TestEngine (onSquareClick TestEngine (initUI 0) "e7") "e8")
        (some (some 'r'))).game = 2 ∧
    (promotionChoiceClick TestEngine
        (onSquareClick TestEngine (onSquareClick TestEngine (initUI 0) "e7") "e8")
        (some (some 'r'))).pendingPromotion = none ∧
    TestEngine.get 2 "e8" = some ⟨PieceType.r, Color.w⟩ := by
  have h := promotion_gate_flow TestEngine (onSquareClick TestEngine (initUI 0) "e7")
      "e7" "e8" (some 'r') 2 (by decide) (by decide) (by decide) (by decide) (by decide) (by decide)
  have h4 := h.2.2.2.1 (by decide)
  exact ⟨h.1, h.2.2.1, h4.1, h4.2.1, by decide⟩

/-- Claim C10: `shouldPromptPromotion` consults only the moving piece's type
and color and the destination's rank character — its truth value is fully
characterized without any reference to the legal-move list or to `move` — so
the promotion modal opens for any click moving a selected white pawn toward a
rank-8 cell, legal or not; legality is checked by the rules collaborator only
after a promotion piece is chosen, and a rejected pending move leaves the
position unchanged with the pending state discarded. -/
theorem promotion_gate_ignores_legality (E : Engine G) (g : G) (f t : String) (c : Color)
    (ui : UIState G) (sel sq : String) (ch : Char) :
    (shouldPromptPromotion E g f t c = true ↔
      (∃ p : Piece, E.get g f = some p ∧ p.type = PieceType.p ∧ p.color = c ∧
        ((c = Color.w ∧ t.data.get? 1 = some '8') ∨ (c = Color.b ∧ t.data.get? 1 = some '1')))) ∧
    (ui.manualGameOver = false → E.game_over ui.game = false → E.turn ui.game = Color.w →
      ui.selectedSquare = some sel → pieceIsWhite (E.get ui.game sq) = false →
      shouldPromptPromotion E ui.game sel sq Color.w = true →
      E.move ui.game ⟨sel, sq, some ch⟩ = none →
        (onSquareClick E ui sq).pendingPromotion = some ⟨sel, sq, Color.w⟩ ∧
        (onSquareClick E ui sq).promotionModalOpen = true ∧
        (onSquareClick E ui sq).game = ui.game ∧
        (promotionChoiceClick E (onSquareClick E ui sq) (some (some ch))).game = ui.game ∧
        (promotionChoiceClick E (onSquareClick E ui sq) (some (some ch))).pendingPromotion
          = none) := by
  constructor
  · unfold shouldPromptPromotion
    cases hg : E.get g f with
    | none => simp
    | some p =>
      by_cases h1 : p.type = PieceType.p
      · by_cases h2 : p.color = c
        · simp [h1, h2]
        · simp [h1, h2]
      · simp [h1]
  · intro hm ho ht hsel hw hgate hmv
    have hr : onSquareClick E ui sq =
        { ui with pendingPromotion := some ⟨sel, sq, Color.w⟩, promotionModalOpen := true } := by
      unfold onSquareClick
      simp [hm, ho, ht, hsel, hw, hgate]
    rw [hr]
    refine ⟨rfl, rfl, rfl, ?_, ?_⟩
    · unfold promotionChoiceClick
      simp only [hmv]
      exact updateStatus_game ..
    · unfold promotionChoiceClick
      simp only [hmv]
      exact updateStatus_pendingPromotion ..

/-- Witness for `promotion_gate_ignores_legality`: e7→a8 is NOT a legal pawn
move (the rules collaborator rejects it), yet after selecting e7 clicking a8
opens the promotion modal with the move pending; choosing queen is then
rejected and the position is unchanged. -/
theorem promotion_gate_ignores_legality_witness :
    TestEngine.move 0 ⟨"e7", "a8", some 'q'⟩ = none ∧
    (onSquareClick TestEngine (onSquareClick TestEngine (initUI 0) "e7") "a8").pendingPromotion
        = some ⟨"e7", "a8", Color.w⟩ ∧
    (onSquareClick TestEngine (onSquareClick TestEngine (initUI 0) "e7") "a8").promotionModalOpen
        = true ∧
    (promotionChoiceClick TestEngine
        (onSquareClick TestEngine (onSquareClick TestEngine (initUI 0) "e7") "a8")
        (some (some 'q'))).game = 0 ∧
    (promotionChoiceClick TestEngine
        (onSquareClick TestEngine (onSquareClick TestEngine (initUI 0) "e7") "a8")
        (some (some 'q'))).pendingPromotion = none := by
  have h := (promotion_gate_ignores_legality TestEngine 0 "e7" "a8" Color.w
      (onSquareClick TestEngine (initUI 0) "e7") "e7" "a8" 'q').2
      (by decide) (by decide) (by decide) (by decide) (by decide) (by decide) (by decide)
  exact ⟨by decide, h.1, h.2.1, h.2.2.2.1, h.2.2.2.2⟩

/-- Claim C5: on a terminal position `updateStatus` picks the displayed label
in exactly the precedence order checkmate > stalemate > threefold repetition >
insufficient material > other draw (50-move text) > unspecified game over;
on a non-terminal turn the status names the side to move and appends the
check warning exactly when that side is in check. -/
theorem updateStatus_precedence (E : Engine G) (ui : UIState G)
    (hm : ui.manualGameOver = false) :
    (E.game_over ui.game = true → E.in_checkmate ui.game = true →
      (updateStatus E ui).statusText =
        "Checkmate. " ++ (if E.turn ui.game = Color.w then "Mahmoud" else "You") ++ " won!" ∧
      (updateStatus E ui).whoIsWinningText =
        (if E.turn ui.game = Color.w then "Mahmoud" else "You") ++ " won!") ∧
    (E.game_over ui.game = true → E.in_checkmate ui.game = false →
      E.in_stalemate ui.game = true →
      (updateStatus E ui).statusText = "Stalemate. Draw!" ∧
      (updateStatus E ui).whoIsWinningText = "Draw!") ∧
    (E.game_over ui.game = true → E.in_checkmate ui.game = false →
      E.in_stalemate ui.game = false → E.in_threefold_repetition ui.game = true →
      (updateStatus E ui).statusText = "Threefold repetition. Draw!" ∧
      (updateStatus E ui).whoIsWinningText = "Draw!") ∧
    (E.game_over ui.game = true → E.in_checkmate ui.game = false →
      E.in_stalemate ui.game = false → E.in_threefold_repetition ui.game = false →
      E.insufficient_material ui.game = true →
      (updateStatus E ui).statusText = "Insufficient material. Draw!" ∧
      (updateStatus E ui).whoIsWinningText = "Draw!") ∧
    (E.game_over ui.game = true → E.in_checkmate ui.game = false →
      E.in_stalemate ui.game = false → E.in_threefold_repetition ui.game = false →
      E.insufficient_material ui.game = false → E.in_draw ui.game = true →
      (updateStatus E ui).statusText = "50-move rule. Draw!" ∧
      (updateStatus E ui).whoIsWinningText = "Draw!") ∧
    (E.game_over ui.game = true → E.in_checkmate ui.game = false →
      E.in_stalemate ui.game = false → E.in_threefold_repetition ui.game = false →
      E.insufficient_material ui.game = false → E.in_draw ui.game = false →
      (updateStatus E ui).statusText = "Game Over." ∧
      (updateStatus E ui).whoIsWinningText = "Game Over") ∧
    (E.game_over ui.game = false →
      (updateStatus E ui).statusText =
        if E.in_check ui.game = true then
          (if E.turn ui.game = Color.w then "You" else "Mahmoud") ++ " to move." ++ " " ++
            (if E.turn ui.game = Color.w then "You are in check!" else "Mahmoud is in check!")
        else (if E.turn ui.game = Color.w then "You" else "Mahmoud") ++ " to move.") := by
  refine ⟨?_, ?_, ?_, ?_, ?_, ?_, ?_⟩
  · intro ho hcm
    unfold updateStatus
    simp [hm, ho, hcm]
  · intro ho hcm hst
    unfold updateStatus
    simp [hm, ho, hcm, hst]
  · intro ho hcm hst htf
    unfold updateStatus
    simp [hm, ho, hcm, hst, htf]
  · intro ho hcm hst htf him
    unfold updateStatus
    simp [hm, ho, hcm, hst, htf, him]
  · intro ho hcm hst htf him hdr
    unfold updateStatus
    simp [hm, ho, hcm, hst, htf, him, hdr]
  · intro ho hcm hst htf him hdr
    unfold updateStatus
    simp [hm, ho, hcm, hst, htf, him, hdr]
  · intro ho
    unfold updateStatus
    by_cases hc : E.in_check ui.game = true
    all_goals by_cases hw : E.turn ui.game = Color.w
    all_goals simp [hm, ho, hc, hw]

/-- Witness for `updateStatus_precedence`: game state 3 is a checkmate with
black to move, so the status reads that the human won. -/
theorem updateStatus_precedence_witness :
    (updateStatus TestEngine (initUI 3)).statusText = "Checkmate. You won!" ∧
    (updateStatus TestEngine (initUI 3)).whoIsWinningText = "You won!" := by
  have h := (updateStatus_precedence TestEngine (initUI 3) (by decide)).1 (by decide) (by decide)
  refine ⟨?_, ?_⟩
  · rw [h.1]
    decide
  · rw [h.2]
    decide

theorem jsRound_one_half_mul_hundred : jsRound (1 / 2 * 100) = 50 := by
  unfold jsRound
  rw [Int.floor_eq_iff]
  norm_num

/-- Claim C6: on a successful evaluation response with probability `p` (here
on the human's turn, where no engine move is applied), the two displayed
percentages are `Math.round(p*100)` and `100 - Math.round(p*100)` — summing
to exactly 100 — the leading-indicator label reads "Balanced" exactly when
the human's rounded percentage equals 50, and `p = 1/2` displays 50% / 50%. -/
theorem probability_display (E : Engine G) (ui : UIState G) (r : EvalResponse) (rand : ℚ)
    (hm : ui.manualGameOver = false) (ho : E.game_over ui.game = false)
    (ht : E.turn ui.game = Color.w) :
    (engineEvaluateAndAct E (some (some r)) rand ui).whiteProbabilityText
        = toString (jsRound (r.prob * 100)) ++ "%" ∧
    (engineEvaluateAndAct E (some (some r)) rand ui).blackProbabilityText
        = toString (100 - jsRound (r.prob * 100)) ++ "%" ∧
    jsRound (r.prob * 100) + (100 - jsRound (r.prob * 100)) = 100 ∧
    ((engineEvaluateAndAct E (some (some r)) rand ui).whoIsWinningText = "Balanced"
        ↔ jsRound (r.prob * 100) = 50) ∧
    (r.prob = 1 / 2 →
      (engineEvaluateAndAct E (some (some r)) rand ui).whiteProbabilityText = "50%" ∧
      (engineEvaluateAndAct E (some (some r)) rand ui).blackProbabilityText = "50%") := by
  have heq : engineEvaluateAndAct E (some (some r)) rand ui =
      updateStatus E
        { ui with
            whiteProbabilityText := toString (jsRound (r.prob * 100)) ++ "%",
            blackProbabilityText := toString (100 - jsRound (r.prob * 100)) ++ "%",
            whoIsWinningText :=
              if jsRound (r.prob * 100) = 50 then "Balanced"
              else if jsRound (r.prob * 100) > 50 then "You" else "Mahmoud" } := by
    unfold engineEvaluateAndAct engineTryBlock fallbackRandomMove
    simp [hm, ho, ht]
  have hkeep := updateStatus_keeps_probabilities E
      { ui with
          whiteProbabilityText := toString (jsRound (r.prob * 100)) ++ "%",
          blackProbabilityText := toString (100 - jsRound (r.prob * 100)) ++ "%",
          whoIsWinningText :=
            if jsRound (r.prob * 100) = 50 then "Balanced"
            else if jsRound (r.prob * 100) > 50 then "You" else "Mahmoud" } hm ho
  rw [heq]
  refine ⟨hkeep.1, hkeep.2.1, by omega, ?_, ?_⟩
  · rw [hkeep.2.2]
    show (if jsRound (r.prob * 100) = 50 then "Balanced"
        else if jsRound (r.prob * 100) > 50 then "You" else "Mahmoud") = "Balanced"
      ↔ jsRound (r.prob * 100) = 50
    by_cases h50 : jsRound (r.prob * 100) = 50
    · simp [h50]
    · by_cases hgt : jsRound (r.prob * 100) > 50
      · rw [if_neg h50, if_pos hgt]
        exact iff_of_false (by decide) h50
      · rw [if_neg h50, if_neg hgt]
        exact iff_of_false (by decide) h50
  · intro hp
    rw [hkeep.1, hkeep.2.1]
    constructor
    · show toString (jsRound (r.prob * 100)) ++ "%" = "50%"
      rw [hp, jsRound_one_half_mul_hundred]
      decide
    · show toString (100 - jsRound (r.prob * 100)) ++ "%" = "50%"
      rw [hp, jsRound_one_half_mul_hundred]
      decide

/-- Witness for `probability_display` at `p = 1/2` on the human's turn. -/
theorem probability_display_witness :
    (engineEvaluateAndAct TestEngine (some (some ⟨1 / 2, none⟩)) 0 (initUI 0)).whiteProbabilityText
        = "50%" ∧
    (engineEvaluateAndAct TestEngine (some (some ⟨1 / 2, none⟩)) 0 (initUI 0)).blackProbabilityText
        = "50%" ∧
    (engineEvaluateAndAct TestEngine (some (some ⟨1 / 2, none⟩)) 0 (initUI 0)).whoIsWinningText
        = "Balanced" := by
  have h := probability_display TestEngine (initUI 0) ⟨1 / 2, none⟩ 0
      (by decide) (by decide) (by decide)
  have h5 := h.2.2.2.2 rfl
  exact ⟨h5.1, h5.2, h.2.2.2.1.mpr jsRound_one_half_mul_hundred⟩

/-- Claim C7: `uciToMove` returns null for a non-string/nullish input and
for any string whose trimmed (lowercased) form is shorter than 4 characters;
otherwise it takes characters 0-1 as source, 2-3 as destination, and the
optional 5th character (already lowercased with the whole string) as
promotion.  In `engineEvaluateAndAct`, a parsed engine move rejected by the
rules collaborator is retried with promotion forced to queen when a promotion
letter was present; if the retry is also rejected, or the parse yielded null,
control falls through to the random-move fallback. -/
theorem uciToMove_parse_and_retry :
    (uciToMove none = none) ∧
    (∀ s : String, (jsTrim s).length < 4 → uciToMove (some s) = none) ∧
    (∀ s : String, 4 ≤ (jsTrim s).length →
      uciToMove (some s) =
        some ⟨⟨(jsToLower (jsTrim s)).data.take 2⟩,
          ⟨((jsToLower (jsTrim s)).data.drop 2).take 2⟩,
          (jsToLower (jsTrim s)).data.get? 4⟩) ∧
    (∀ (E : Engine G) (ui : UIState G) (r : EvalResponse) (rand : ℚ) (mv : MoveArg) (g' : G),
      ui.manualGameOver = false → E.game_over ui.game = false → E.turn ui.game = Color.b →
      uciToMove r.best_move = some mv →
      ((E.move ui.game mv = some g' →
          (engineEvaluateAndAct E (some (some r)) rand ui).game = g') ∧
       (∀ c : Char, mv.promotion = some c → E.move ui.game mv = none →
          E.move ui.game ⟨mv.fromSq, mv.toSq, some 'q'⟩ = some g' →
            (engineEvaluateAndAct E (some (some r)) rand ui).game = g' ∧
            (engineEvaluateAndAct E (some (some r)) rand ui).lastAIMoveUCI
              = some (mv.fromSq ++ mv.toSq ++ "q")) ∧
       (E.move ui.game mv = none →
          (mv.promotion = none ∨ E.move ui.game ⟨mv.fromSq, mv.toSq, some 'q'⟩ = none) →
            (engineEvaluateAndAct E (some (some r)) rand ui).game
              = (fallbackRandomMove E rand ui.game).1))) ∧
    (∀ (E : Engine G) (ui : UIState G) (r : EvalResponse) (rand : ℚ),
      ui.manualGameOver = false → E.game_over ui.game = false →
      uciToMove r.best_move = none →
        (engineEvaluateAndAct E (some (some r)) rand ui).game
          = (fallbackRandomMove E rand ui.game).1) := by
  refine ⟨rfl, ?_, ?_, ?_, ?_⟩
  · intro s hlen
    have hlen' : (jsToLower (jsTrim s)).length < 4 := by
      rw [jsToLower_length]
      exact hlen
    unfold uciToMove
    by_cases hs : s = ""
    · simp [hs]
    · simp [hs, hlen']
  · intro s hlen
    have hlen' : ¬(jsToLower (jsTrim s)).length < 4 := by
      rw [jsToLower_length]
      omega
    have hs : s ≠ "" := by
      intro h
      rw [h] at hlen
      have h0 : (jsTrim "").length = 0 := rfl
      omega
    unfold uciToMove
    cases hp : (jsToLower (jsTrim s)).data.get? 4
    all_goals rw [List.get?_eq_getElem?] at hp
    all_goals simp [hs, hlen', List.get?_eq_getElem?, hp]
  · intro E ui r rand mv g' hm ho htb hparse
    refine ⟨?_, ?_, ?_⟩
    · intro hmv
      unfold engineEvaluateAndAct engineTryBlock
      simp [hm, ho, htb, hparse, hmv, updateStatus_game]
    · intro c hpc hmv1 hmv2
      unfold engineEvaluateAndAct engineTryBlock
      simp [hm, ho, htb, hparse, hmv1, hpc, hmv2, updateStatus_game, updateStatus_lastAIMoveUCI]
    · intro hmv1 hdis
      unfold engineEvaluateAndAct engineTryBlock
      cases hp : mv.promotion with
      | none => simp [hm, ho, htb, hparse, hmv1, hp, updateStatus_game]
      | some c =>
        rcases hdis with hd | hd
        · rw [hp] at hd
          cases hd
        · simp [hm, ho, htb, hparse, hmv1, hp, hd, updateStatus_game]
  · intro E ui r rand hm ho hparse
    unfold engineEvaluateAndAct engineTryBlock
    by_cases htb : E.turn ui.game = Color.b
    · simp [hm, ho, htb, hparse, updateStatus_game]
    · simp [hm, ho, htb, updateStatus_game]

/-- Witness for `uciToMove_parse_and_retry`: the engine recommends "a2a1r" in
game state 1; the rook-promotion is rejected, the queen-forcing retry is
accepted, and the recorded UCI string is "a2a1q". -/
theorem uciToMove_parse_and_retry_witness :
    uciToMove (some "a2a1r") = some ⟨"a2", "a1", some 'r'⟩ ∧
    TestEngine.move 1 ⟨"a2", "a1", some 'r'⟩ = none ∧
    TestEngine.move 1 ⟨"a2", "a1", some 'q'⟩ = some 6 ∧
    (engineEvaluateAndAct TestEngine (some (some ⟨1 / 2, some "a2a1r"⟩)) 0 (initUI 1)).game = 6 ∧
    (engineEvaluateAndAct TestEngine (some (some ⟨1 / 2, some "a2a1r"⟩)) 0 (initUI 1)).lastAIMoveUCI
      = some "a2a1q" := by
  have h := ((uciToMove_parse_and_retry (G := ℕ)).2.2.2.1 TestEngine (initUI 1)
      ⟨1 / 2, some "a2a1r"⟩ 0 ⟨"a2", "a1", some 'r'⟩ 6
      (by decide) (by decide) (by decide) (by decide)).2.1 'r'
      (by decide) (by decide) (by decide)
  exact ⟨by decide, by decide, by decide, h.1, h.2⟩

/-- Claim C8: the random fallback draws its index as `floor(rand * n)` over
the FULL legal-move list: for `rand` uniform on `[0,1)` the index is always
in range and hits each `k < n` exactly on the interval `[k/n, (k+1)/n)` —
intervals of equal length `1/n`, so the choice is uniform over the list; the
submitted move forces promotion to queen exactly when the chosen move
carries the `'p'` pawn-promotion flag (given the rules collaborator's
invariant that only flagged moves carry a promotion field); and on the
opponent's turn in a non-terminal position with a non-empty list,
`fallbackRandomMove` submits exactly the so-chosen move. -/
theorem fallback_uniform_random (E : Engine G) (g : G) (rand : ℚ) (m : VerboseMove) :
    (∀ n : ℕ, 0 < n → 0 ≤ rand → rand < 1 →
      fallbackIndex rand n < n ∧
      ∀ k : ℕ, (fallbackIndex rand n = k ↔ (k : ℚ) / n ≤ rand ∧ rand < ((k : ℚ) + 1) / n)) ∧
    (('p' ∈ m.flags → (fallbackMoveArg m).promotion = some 'q') ∧
     ('p' ∉ m.flags → (fallbackMoveArg m).promotion = m.promotion) ∧
     (('p' ∉ m.flags → m.promotion = none) →
        ((fallbackMoveArg m).promotion = some 'q' ↔ 'p' ∈ m.flags))) ∧
    (E.turn g = Color.b → E.game_over g = false → 0 < (E.moves g none).length →
      fallbackRandomMove E rand g =
        ((match E.move g (fallbackMoveArg ((E.moves g none).getD
            (fallbackIndex rand (E.moves g none).length) ⟨"", "", [], none⟩)) with
          | some g' => g'
          | none => g),
         some (((E.moves g none).getD (fallbackIndex rand (E.moves g none).length)
              ⟨"", "", [], none⟩).fromSq ++
            ((E.moves g none).getD (fallbackIndex rand (E.moves g none).length)
              ⟨"", "", [], none⟩).toSq ++
            optCharToStr (((E.moves g none).getD (fallbackIndex rand (E.moves g none).length)
              ⟨"", "", [], none⟩).promotion)))) := by
  refine ⟨?_, ⟨?_, ?_, ?_⟩, ?_⟩
  · intro n hn h0 h1
    have hnn : (0 : ℚ) < (n : ℚ) := by exact_mod_cast hn
    have hfl0 : 0 ≤ ⌊rand * (n : ℚ)⌋ := Int.floor_nonneg.mpr (mul_nonneg h0 (le_of_lt hnn))
    have hflt : ⌊rand * (n : ℚ)⌋ < (n : ℤ) := by
      rw [Int.floor_lt]
      push_cast
      calc rand * (n : ℚ) < 1 * (n : ℚ) := by
            exact mul_lt_mul_of_pos_right h1 hnn
        _ = (n : ℚ) := one_mul _
    constructor
    · unfold fallbackIndex
      omega
    · intro k
      unfold fallbackIndex
      constructor
      · intro hk
        have hk' : ⌊rand * (n : ℚ)⌋ = (k : ℤ) := by omega
        rw [Int.floor_eq_iff] at hk'
        constructor
        · rw [div_le_iff₀ hnn]
          exact_mod_cast hk'.1
        · rw [lt_div_iff₀ hnn]
          exact_mod_cast hk'.2
      · rintro ⟨hk1, hk2⟩
        have h1' : (k : ℚ) ≤ rand * (n : ℚ) := (div_le_iff₀ hnn).mp hk1
        have h2' : rand * (n : ℚ) < (k : ℚ) + 1 := (lt_div_iff₀ hnn).mp hk2
        have hk' : ⌊rand * (n : ℚ)⌋ = (k : ℤ) := by
          rw [Int.floor_eq_iff]
          constructor
          · exact_mod_cast h1'
          · exact_mod_cast h2'
        omega
  · intro hp
    unfold fallbackMoveArg
    simp [hp]
  · intro hp
    unfold fallbackMoveArg
    simp [hp]
  · intro hco
    constructor
    · intro hq
      by_contra hp
      have := hco hp
      unfold fallbackMoveArg at hq
      simp [hp, this] at hq
    · intro hp
      unfold fallbackMoveArg
      simp [hp]
  · intro htb hov hlen
    unfold fallbackRandomMove
    simp [htb, hov, hlen]

/-- Witness for `fallback_uniform_random`: with two legal moves and
`rand = 1/2` the index is 1 (the interval `[1/2, 1)`), the chosen move is
the promotion-flagged a2a1 and is submitted with promotion forced to queen,
reaching game state 6. -/
theorem fallback_uniform_random_witness :
    fallbackIndex (1 / 2) 2 = 1 ∧
    (fallbackMoveArg ⟨"a2", "a1", ['p'], some 'q'⟩).promotion = some 'q' ∧
    fallbackRandomMove TestEngine (1 / 2) 1 = (6, some "a2a1q") := by
  have hthm := fallback_uniform_random TestEngine 1 (1 / 2) ⟨"a2", "a1", ['p'], some 'q'⟩
  have hidx : fallbackIndex (1 / 2) 2 = 1 := by
    refine ((hthm.1 2 (by norm_num) (by norm_num) (by norm_num)).2 1).mpr ?_
    constructor
    · norm_num
    · norm_num
  have hpair := hthm.2.2 (by decide) (by decide) (by decide)
  have hl : (TestEngine.moves 1 none).length = 2 := by decide
  rw [hl] at hpair
  rw [hidx] at hpair
  refine ⟨hidx, hthm.2.1.1 (by decide), ?_⟩
  rw [hpair]
  decide

/-- A resolved evaluation payload whose recommended move is absent or
unparsable (`uciToMove` yields null): the percentage displays are updated
from the payload's probability (lines 286-289 run before any move attempt),
no engine move applies, and the cycle completes through the random-move
fallback.  The displays therefore end the cycle showing percentages, not the
"Calculating…" placeholder. -/
theorem engineEval_resolved_no_move (E : Engine G) (ui : UIState G) (r : EvalResponse)
    (rand : ℚ)
    (hm : ui.manualGameOver = false) (ho : E.game_over ui.game = false)
    (hparse : uciToMove r.best_move = none) :
    (engineEvaluateAndAct E (some (some r)) rand ui).game
        = (fallbackRandomMove E rand ui.game).1 ∧
    (E.game_over (fallbackRandomMove E rand ui.game).1 = false →
      (engineEvaluateAndAct E (some (some r)) rand ui).whiteProbabilityText
          = toString (jsRound (r.prob * 100)) ++ "%" ∧
      (engineEvaluateAndAct E (some (some r)) rand ui).blackProbabilityText
          = toString (100 - jsRound (r.prob * 100)) ++ "%") := by
  have heq : engineEvaluateAndAct E (some (some r)) rand ui =
      updateStatus E
        { ui with
            game := (fallbackRandomMove E rand ui.game).1,
            lastAIMoveUCI :=
              match (fallbackRandomMove E rand ui.game).2 with
              | some l => some l
              | none => ui.lastAIMoveUCI,
            whiteProbabilityText := toString (jsRound (r.prob * 100)) ++ "%",
            blackProbabilityText := toString (100 - jsRound (r.prob * 100)) ++ "%",
            whoIsWinningText :=
              if jsRound (r.prob * 100) = 50 then "Balanced"
              else if jsRound (r.prob * 100) > 50 then "You" else "Mahmoud" } := by
    unfold engineEvaluateAndAct engineTryBlock
    by_cases htb : E.turn ui.game = Color.b
    · simp [hm, ho, htb, hparse]
    · simp [hm, ho, htb, hparse]
  rw [heq]
  constructor
  · rw [updateStatus_game]
  · intro hov
    have hk := updateStatus_keeps_probabilities E
        { ui with
            game := (fallbackRandomMove E rand ui.game).1,
            lastAIMoveUCI :=
              match (fallbackRandomMove E rand ui.game).2 with
              | some l => some l
              | none => ui.lastAIMoveUCI,
            whiteProbabilityText := toString (jsRound (r.prob * 100)) ++ "%",
            blackProbabilityText := toString (100 - jsRound (r.prob * 100)) ++ "%",
            whoIsWinningText :=
              if jsRound (r.prob * 100) = 50 then "Balanced"
              else if jsRound (r.prob * 100) > 50 then "You" else "Mahmoud" } hm hov
    exact ⟨hk.1, hk.2.1⟩

/-- Claim C9, amended: failures of the evaluation request that REJECT — the
collaborator function is absent (`fetch = none`) or the awaited call throws
(a network error, or a nullish malformed payload breaking the destructuring
on line 284; `fetch = some none`, swallowed by the `catch`) — never escape
`engineEvaluateAndAct`: the cycle completes with the position advanced
exactly by the random-move fallback, no error text written anywhere, and the
probability displays still holding the "Calculating…" placeholders when the
cycle ends on a live position.  A malformed response that RESOLVES is not
confined this way: a payload carrying a probability but no usable
recommended move still degrades silently to the random-move fallback, but
the probability displays end the cycle updated from the payload instead of
remaining in the calculating state. -/
theorem evaluation_failure_degrades (E : Engine G) (ui : UIState G) (rand : ℚ)
    (hm : ui.manualGameOver = false) (ho : E.game_over ui.game = false) :
    (∀ fetch : Option (Option EvalResponse), fetch = none ∨ fetch = some none →
      (engineEvaluateAndAct E fetch rand ui).game = (fallbackRandomMove E rand ui.game).1 ∧
      (E.game_over (fallbackRandomMove E rand ui.game).1 = false →
        (engineEvaluateAndAct E fetch rand ui).whiteProbabilityText = "Calculating…" ∧
        (engineEvaluateAndAct E fetch rand ui).blackProbabilityText = "Calculating…" ∧
        (engineEvaluateAndAct E fetch rand ui).whoIsWinningText = ui.whoIsWinningText)) ∧
    (∀ r : EvalResponse, uciToMove r.best_move = none →
      (engineEvaluateAndAct E (some (some r)) rand ui).game
          = (fallbackRandomMove E rand ui.game).1 ∧
      (E.game_over (fallbackRandomMove E rand ui.game).1 = false →
        (engineEvaluateAndAct E (some (some r)) rand ui).whiteProbabilityText
            = toString (jsRound (r.prob * 100)) ++ "%" ∧
        (engineEvaluateAndAct E (some (some r)) rand ui).blackProbabilityText
            = toString (100 - jsRound (r.prob * 100)) ++ "%")) := by
  constructor
  · intro fetch hf
    have heq : engineEvaluateAndAct E fetch rand ui =
        updateStatus E
          { ui with
              game := (fallbackRandomMove E rand ui.game).1,
              lastAIMoveUCI :=
                match (fallbackRandomMove E rand ui.game).2 with
                | some l => some l
                | none => ui.lastAIMoveUCI,
              whiteProbabilityText := "Calculating…",
              blackProbabilityText := "Calculating…" } := by
      rcases hf with hf | hf
      all_goals subst hf
      all_goals unfold engineEvaluateAndAct engineTryBlock
      all_goals simp [hm, ho]
    rw [heq]
    constructor
    · rw [updateStatus_game]
    · intro hov
      have hk := updateStatus_keeps_probabilities E
          { ui with
              game := (fallbackRandomMove E rand ui.game).1,
              lastAIMoveUCI :=
                match (fallbackRandomMove E rand ui.game).2 with
                | some l => some l
                | none => ui.lastAIMoveUCI,
              whiteProbabilityText := "Calculating…",
              blackProbabilityText := "Calculating…" } hm hov
      exact ⟨hk.1, hk.2.1, hk.2.2⟩
  · intro r hparse
    exact engineEval_resolved_no_move E ui r rand hm ho hparse

/-- Concrete evaluation of the random fallback in game state 1 with
`Math.random() = 0`: the first of the two legal moves (e7e5, no promotion
flag) is submitted unchanged, reaching game state 6. -/
theorem fallbackRandomMove_state1_rand0 :
    fallbackRandomMove TestEngine 0 1 = (6, some "e7e5") := by
  have h1 : TestEngine.turn 1 = Color.b := by decide
  have h2 : TestEngine.game_over 1 = false := by decide
  have hl : (TestEngine.moves 1 none).length = 2 := by decide
  have hidx : fallbackIndex 0 2 = 0 := by
    unfold fallbackIndex
    simp
  unfold fallbackRandomMove
  simp only [h1, h2, hl, hidx]
  decide

/-- Claim C9 is false as stated for the malformed-response case: in game
state 1 a resolved payload carrying probability 1/2 but no recommended move
(a failed evaluation request in the claim's taxonomy) is not caught as an
error — the random-move fallback runs (game state 6) — yet the probability
displays end the cycle showing "50%", NOT the "calculating" marker.  (The
other malformed shape, a payload whose `prob` is missing or non-numeric,
writes "NaN%" into the displays at line 286 — likewise not "calculating";
it lies outside this model's numeric `EvalResponse.prob`.) -/
theorem malformed_response_shows_percentages :
    (engineEvaluateAndAct TestEngine (some (some ⟨1 / 2, none⟩)) 0 (initUI 1)).game = 6 ∧
    (engineEvaluateAndAct TestEngine (some (some ⟨1 / 2, none⟩)) 0
        (initUI 1)).whiteProbabilityText = "50%" ∧
    (engineEvaluateAndAct TestEngine (some (some ⟨1 / 2, none⟩)) 0
        (initUI 1)).whiteProbabilityText ≠ "Calculating…" := by
  have h := engineEval_resolved_no_move TestEngine (initUI 1) ⟨1 / 2, none⟩ 0
      (by decide) (by decide) rfl
  have hov : TestEngine.game_over (fallbackRandomMove TestEngine 0 (initUI 1).game).1
      = false := by
    show TestEngine.game_over (fallbackRandomMove TestEngine 0 1).1 = false
    rw [fallbackRandomMove_state1_rand0]
    decide
  have hfb : (fallbackRandomMove TestEngine 0 (initUI 1).game).1 = 6 := by
    show (fallbackRandomMove TestEngine 0 1).1 = 6
    rw [fallbackRandomMove_state1_rand0]
  have hwv : (engineEvaluateAndAct TestEngine (some (some ⟨1 / 2, none⟩)) 0
      (initUI 1)).whiteProbabilityText = "50%" := by
    rw [(h.2 hov).1]
    show toString (jsRound ((1 : ℚ) / 2 * 100)) ++ "%" = "50%"
    rw [jsRound_one_half_mul_hundred]
    decide
  refine ⟨?_, hwv, ?_⟩
  · rw [h.1]
    exact hfb
  · rw [hwv]
    decide

/-- Witness for `evaluation_failure_degrades`: in game state 1, an absent
collaborator leaves the displays in the calculating state while the fallback
move is applied (state 6); a resolved payload with probability 1/2 and no
recommended move also falls back to state 6 but ends the cycle displaying
"50%". -/
theorem evaluation_failure_degrades_witness :
    (engineEvaluateAndAct TestEngine none 0 (initUI 1)).game = 6 ∧
    (engineEvaluateAndAct TestEngine none 0 (initUI 1)).whiteProbabilityText = "Calculating…" ∧
    (engineEvaluateAndAct TestEngine none 0 (initUI 1)).blackProbabilityText = "Calculating…" ∧
    (engineEvaluateAndAct TestEngine none 0 (initUI 1)).whoIsWinningText = "" ∧
    (engineEvaluateAndAct TestEngine (some (some ⟨1 / 2, none⟩)) 0 (initUI 1)).game = 6 ∧
    (engineEvaluateAndAct TestEngine (some (some ⟨1 / 2, none⟩)) 0
        (initUI 1)).whiteProbabilityText = "50%" := by
  have h := evaluation_failure_degrades TestEngine (initUI 1) 0 (by decide) (by decide)
  have hov : TestEngine.game_over (fallbackRandomMove TestEngine 0 (initUI 1).game).1
      = false := by
    show TestEngine.game_over (fallbackRandomMove TestEngine 0 1).1 = false
    rw [fallbackRandomMove_state1_rand0]
    decide
  have hfb : (fallbackRandomMove TestEngine 0 (initUI 1).game).1 = 6 := by
    show (fallbackRandomMove TestEngine 0 1).1 = 6
    rw [fallbackRandomMove_state1_rand0]
  have h1 := h.1 none (Or.inl rfl)
  have htx := h1.2 hov
  have h2 := h.2 ⟨1 / 2, none⟩ rfl
  refine ⟨?_, htx.1, htx.2.1, htx.2.2, ?_, ?_⟩
  · rw [h1.1]
    exact hfb
  · rw [h2.1]
    exact hfb
  · rw [(h2.2 hov).1]
    show toString (jsRound ((1 : ℚ) / 2 * 100)) ++ "%" = "50%"
    rw [jsRound_one_half_mul_hundred]
    decide

end ChessUI
